import Mathlib

/-!
Verification of the admin-parent school-fees portal core against its
specification.  The Python sources are shallowly embedded: JSON stores
become association lists (Python dicts preserve insertion order), CSV
ledgers become lists of row records, amounts become exact rationals, and
the two timestamps a function draws from the clock become explicit string
parameters.  A store file that is missing (or unparseable where the source
swallows the parse error) is modelled as `Option.none` on the input side.
-/

set_option autoImplicit false

namespace AdminParent

/-- Record in the admin-side payment store `parent_payments_history.json`,
as written by `RealPaymentSystem._save_parent_payment_record` and mutated
by `verify_parent_payment` / `reject_parent_payment`
(src/payment_notifications.py).  The verification/rejection stamp fields
are absent until the corresponding transition runs, hence `Option`.
`transaction_id` is read with `dict.get`, hence `Option` as well. -/
structure PaymentRecord where
  student_id : String
  student_name : String
  amount : ℚ
  payment_method : String
  payment_date : String
  transaction_id : Option String
  status : String
  verified_at : Option String := none
  verified_by : Option String := none
  rejected_at : Option String := none
  rejected_by : Option String := none
  rejection_reason : Option String := none
  deriving DecidableEq

/-- The admin-side store: Python dict mapping student id to its list of
payment records, kept in insertion order. -/
abbrev PaymentsStore := List (String × List PaymentRecord)

/-- Replace the first element satisfying `p` by its image under `f`,
leaving everything else unchanged.  This is the effect of the Python
pattern `for i, x in enumerate(l): if p(x): l[i] = f(x); break`. -/
def updateFirst {α : Type} (p : α → Bool) (f : α → α) : List α → List α
  | [] => []
  | x :: xs => if p x then f x :: xs else x :: updateFirst p f xs

/-- Field updates performed on a matching record by `verify_parent_payment`
(src/payment_notifications.py lines 48-50): status becomes verified and the
verification stamps are overwritten. -/
def verifyRecord (now user : String) (r : PaymentRecord) : PaymentRecord :=
  { r with status := "verified", verified_at := some now, verified_by := some user }

/-- Field updates performed on a matching record by `reject_parent_payment`
(src/payment_notifications.py lines 76-79). -/
def rejectRecord (now user : String) (r : PaymentRecord) : PaymentRecord :=
  { r with status := "rejected", rejected_at := some now, rejected_by := some user,
           rejection_reason := some "Manual rejection by admin" }

/-- Store transformation of `verify_parent_payment`: the outer loop visits
every student; the inner loop updates the first record of that student
whose `transaction_id` equals the argument, then `break`s out of the inner
loop only, so the scan continues with the next student. -/
def verifyStore (tid : Option String) (now user : String) (s : PaymentsStore) : PaymentsStore :=
  s.map (fun stu => (stu.1, updateFirst (fun r => r.transaction_id == tid) (verifyRecord now user) stu.2))

/-- Store transformation of `reject_parent_payment`, same scan shape as
`verifyStore`. -/
def rejectStore (tid : Option String) (now user : String) (s : PaymentsStore) : PaymentsStore :=
  s.map (fun stu => (stu.1, updateFirst (fun r => r.transaction_id == tid) (rejectRecord now user) stu.2))

/-- Embedding of `verify_parent_payment(payment_data)`
(src/payment_notifications.py lines 33-59).  `tid` is
`payment_data.get('transaction_id')`, `now` the formatted current time and
`user` the session user.  A missing store file returns `false` without
touching the store; otherwise the store is rewritten (even when nothing
matched) and the function returns `true`. -/
def verify_parent_payment (tid : Option String) (now user : String) :
    Option PaymentsStore → Bool × Option PaymentsStore
  | none => (false, none)
  | some s => (true, some (verifyStore tid now user s))

/-- Embedding of `reject_parent_payment(payment_data)`
(src/payment_notifications.py lines 61-88). -/
def reject_parent_payment (tid : Option String) (now user : String) :
    Option PaymentsStore → Bool × Option PaymentsStore
  | none => (false, none)
  | some s => (true, some (rejectStore tid now user s))

/-- Statuses of all records of a store, student by student, record by
record, in store order. -/
def statusesOf (s : PaymentsStore) : List (List String) :=
  s.map (fun stu => stu.2.map (fun r => r.status))

/-- Parent-side payment request, as created by `record_payment_request`
(src/parent_database.py lines 141-172) into `data/parent_payments.json`. -/
structure PaymentRequest where
  request_id : String
  parent_email : String
  amount : ℚ
  payment_type : String
  payment_method : String
  status : String
  requested_at : String
  selected_months : List String
  deriving DecidableEq

/-- The parent-side store: dict mapping student id to its list of payment
requests, in insertion order. -/
abbrev RequestStore := List (String × List PaymentRequest)

/-- Python `d.get(k, default)` on an insertion-ordered dict rendered as an
association list: the first binding of the key wins. -/
def dictGet {α : Type} (k : String) : List (String × α) → Option α
  | [] => none
  | (k2, v) :: rest => if k2 = k then some v else dictGet k rest

/-- Combined effect of the two Python dict steps in
`record_payment_request`: `if sid not in payments: payments[sid] = []`
(which appends a fresh key at the end, in insertion order) followed by
`payments[sid].append(req)`. -/
def storeAppend (sid : String) (req : PaymentRequest) : RequestStore → RequestStore
  | [] => [(sid, [req])]
  | (k, l) :: rest =>
      if k = sid then (k, l ++ [req]) :: rest else (k, l) :: storeAppend sid req rest

/-- The request record built by `record_payment_request`.  The function
reads the clock twice: once for the request id (`ridTime`, format
yyyymmddHHMMSS) and once for the `requested_at` stamp (`reqTime`); both are
passed explicitly.  `months` is the optional `selected_months` argument,
defaulted to the empty list when absent or empty (Python truthiness). -/
def newRequest (email : String) (amount : ℚ) (ptype pmethod : String)
    (months : Option (List String)) (ridTime reqTime : String) : PaymentRequest :=
  { request_id := "PR_" ++ ridTime
    parent_email := email
    amount := amount
    payment_type := ptype
    payment_method := pmethod
    status := "pending"
    requested_at := reqTime
    selected_months := months.getD [] }

/-- Embedding of `record_payment_request(student_id, parent_email, amount,
payment_type, payment_method, selected_months)` (src/parent_database.py
lines 141-172).  A missing or unparseable store file is caught by the
`try/except` and treated as the empty dict (`file = none`).  Returns the
generated request id together with the store written back. -/
def record_payment_request (sid email : String) (amount : ℚ) (ptype pmethod : String)
    (months : Option (List String)) (ridTime reqTime : String)
    (file : Option RequestStore) : String × RequestStore :=
  let payments := file.getD []
  ("PR_" ++ ridTime, storeAppend sid (newRequest email amount ptype pmethod months ridTime reqTime) payments)

/-- Embedding of `get_payment_requests(student_id)` (src/parent_database.py
lines 174-184): `payments.get(student_id, [])`, with a missing or
unparseable file treated as the empty dict. -/
def get_payment_requests (sid : String) (file : Option RequestStore) : List PaymentRequest :=
  (dictGet sid (file.getD [])).getD []

/-- Filtering done by `show_pending_requests` (src/parent_dashboard.py
lines 295-327): requests whose status equals `pending`. -/
def pendingRequestsOf (l : List PaymentRequest) : List PaymentRequest :=
  l.filter (fun req => req.status == "pending")

/-- Student identity record in `data/student_details.json`, the two fields
`get_student_fee_summary` reads (with `.get` defaults). -/
structure StudentDetails where
  name : Option String
  className : Option String
  deriving DecidableEq

/-- Per-student fee schedule in `data/student_fees.json`; each amount is
read with `.get(key, 0)`, hence `Option`. -/
structure FeeSchedule where
  monthly_fee : Option ℚ
  admission_fee : Option ℚ
  annual_fee : Option ℚ
  deriving DecidableEq

/-- Row of the fee ledger (`fees_data.csv`, also loaded as the dataframe
consumed by src/parent_portal.py).  `id` is `row.get('ID')`.
`receivedAmount` is `none` when the Received Amount cell fails to parse as
a float (the `try/except` then skips the row); an absent cell parses as
`0`.  The Monthly Fee, Annual Charges and Admission Fee cells are
modelled as already-parsed numbers, matching every row the system itself
writes; the two fee-category columns default to 0 in the concrete
stores below, as in ordinary monthly-fee rows. -/
structure FeeRow where
  id : Option String
  month : String
  monthlyFee : ℚ
  receivedAmount : Option ℚ
  date : String
  method : String
  annualCharges : ℚ := 0
  admissionFee : ℚ := 0
  deriving DecidableEq

/-- Embedding of `get_student_details(student_id)` (src/parent_database.py
lines 21-29): `none` when the file is missing or the student absent. -/
def get_student_details (db : Option (List (String × StudentDetails))) (sid : String) :
    Option StudentDetails :=
  db.bind (dictGet sid)

/-- Embedding of `get_student_fees(student_id)` (src/parent_database.py
lines 31-39). -/
def get_student_fees (db : Option (List (String × FeeSchedule))) (sid : String) :
    Option FeeSchedule :=
  db.bind (dictGet sid)

/-- Python `round(q, 2)` modelled on exact rationals: round `q` to the
nearest multiple of 1/100 (Mathlib `round`, half away from zero upward).
Binary floating point makes CPython round half to even on the nearest
representable double; the two agree away from representation ties, which
covers every value appearing in the specification scenarios. -/
def pyRound2 (q : ℚ) : ℚ :=
  ((round (q * 100) : ℤ) : ℚ) / 100

/-- Output dictionary of `get_student_fee_summary`
(src/parent_database.py lines 71-82). -/
structure FeeSummary where
  student_id : String
  student_name : String
  className : String
  monthly_fee : ℚ
  admission_fee : ℚ
  annual_fee : ℚ
  total_yearly_due : ℚ
  total_received : ℚ
  balance_due : ℚ
  percentage_paid : ℚ
  deriving DecidableEq

/-- Sum of `Received Amount` over the ledger rows whose ID matches, as in
src/parent_database.py lines 57-66: a row whose cell fails to parse
contributes nothing (`except: pass`). -/
def receivedOf (ledger : List FeeRow) (sid : String) : ℚ :=
  ledger.foldl (fun acc r => if r.id = some sid then acc + r.receivedAmount.getD 0 else acc) 0

/-- Embedding of `get_student_fee_summary(student_id)`
(src/parent_database.py lines 41-82).  Returns `none` when either the
identity record or the fee-schedule record is missing; a missing ledger
file is the empty ledger. -/
def get_student_fee_summary (sDb : Option (List (String × StudentDetails)))
    (fDb : Option (List (String × FeeSchedule))) (ledger : List FeeRow) (sid : String) :
    Option FeeSummary :=
  match get_student_details sDb sid, get_student_fees fDb sid with
  | some student, some fees =>
      let monthly_fee := fees.monthly_fee.getD 0
      let admission_fee := fees.admission_fee.getD 0
      let annual_fee := fees.annual_fee.getD 0
      let received := receivedOf ledger sid
      let total_due := monthly_fee * 12 + admission_fee + annual_fee
      let balance := total_due - received
      some { student_id := sid
             student_name := student.name.getD "N/A"
             className := student.className.getD "N/A"
             monthly_fee := monthly_fee
             admission_fee := admission_fee
             annual_fee := annual_fee
             total_yearly_due := total_due
             total_received := received
             balance_due := max 0 balance
             percentage_paid := pyRound2 (if 0 < total_due then received / total_due * 100 else 0) }
  | _, _ => none

/-- Entry of the `get_paid_months` result list (src/parent_database.py
lines 84-100). -/
structure PaidMonth where
  month : String
  amount : ℚ
  date : String
  method : String
  deriving DecidableEq

/-- Embedding of `get_paid_months(student_id)` (src/parent_database.py
lines 84-100): one entry per ledger row whose ID matches and whose Monthly
Fee is positive, in file order.  The month label is copied verbatim from
the row, so out-of-calendar sentinels such as the `PARENT_PAYMENT` label
written by `RealPaymentSystem.handle_parent_payment` appear as-is. -/
def get_paid_months (ledger : List FeeRow) (sid : String) : List PaidMonth :=
  (ledger.filter (fun r => r.id == some sid && decide (0 < r.monthlyFee))).map
    (fun r => { month := r.month, amount := r.monthlyFee, date := r.date, method := r.method })

/-- The fixed calendar used by `get_unpaid_months`
(src/parent_database.py lines 104-107). -/
def allMonths : List String :=
  ["JANUARY", "FEBRUARY", "MARCH", "APRIL", "MAY", "JUNE",
   "JULY", "AUGUST", "SEPTEMBER", "OCTOBER", "NOVEMBER", "DECEMBER"]

/-- Embedding of `get_unpaid_months(student_id)` (src/parent_database.py
lines 102-113): the calendar months not occurring among the paid month
labels, in calendar order. -/
def get_unpaid_months (ledger : List FeeRow) (sid : String) : List String :=
  allMonths.filter (fun m => !((get_paid_months ledger sid).map PaidMonth.month).contains m)

/-- The academic-year calendar used by the parent-portal resolver
(src/parent_portal.py lines 104-107). -/
def academicMonths : List String :=
  ["APRIL", "MAY", "JUNE", "JULY", "AUGUST", "SEPTEMBER",
   "OCTOBER", "NOVEMBER", "DECEMBER", "JANUARY", "FEBRUARY", "MARCH"]

/-- Month-is-paid test of the portal resolver (src/parent_portal.py lines
119-122): some ledger row of the student carries this month label with a
positive Monthly Fee. -/
def portalMonthPaid (ledger : List FeeRow) (sid m : String) : Bool :=
  ledger.any (fun r => r.id == some sid && r.month == m && decide (0 < r.monthlyFee))

/-- Entry of the portal resolver paid list (src/parent_portal.py lines
124-128). -/
structure PortalPaidMonth where
  month : String
  amount : ℚ
  date : String
  deriving DecidableEq

/-- Paid list of the portal resolver `get_student_fee_details`
(src/parent_portal.py lines 114-130): for each academic month in order,
the first matching ledger row with positive Monthly Fee, when one
exists. -/
def portal_paid_months (ledger : List FeeRow) (sid : String) : List PortalPaidMonth :=
  academicMonths.filterMap (fun m =>
    (ledger.find? (fun r => r.id == some sid && r.month == m && decide (0 < r.monthlyFee))).map
      (fun r => { month := m, amount := r.monthlyFee, date := r.date }))

/-- Unpaid list of the portal resolver (src/parent_portal.py lines
129-130): the academic months with no matching positive-fee row. -/
def portal_unpaid_months (ledger : List FeeRow) (sid : String) : List String :=
  academicMonths.filter (fun m => !portalMonthPaid ledger sid m)

/-- Python `round(q, 1)` modelled on exact rationals, used by the portal
fee details (src/parent_portal.py line 167); same caveat about float
representation ties as `pyRound2`. -/
def pyRound1 (q : ℚ) : ℚ :=
  ((round (q * 10) : ℤ) : ℚ) / 10

/-- Student identity record as read by the portal path
(src/parent_portal.py lines 100, 154-157) from `load_student_details` in
the external database module: the four fields `get_student_fee_details`
reads with `.get` defaults. -/
structure PortalStudentInfo where
  student_name : Option String
  father_name : Option String
  class_category : Option String
  phone : Option String
  deriving DecidableEq

/-- Default fee record returned by `load_default_fees` in the external
database module, read with `.get(key, fallback)` by the portal fee
helpers (src/parent_portal.py lines 59-61, 72-74, 85-87). -/
structure DefaultFees where
  monthly_fee : Option ℚ
  annual_charges : Option ℚ
  admission_fee : Option ℚ
  deriving DecidableEq

/-- Embedding of `get_student_monthly_fee(student_id)`
(src/parent_portal.py lines 51-63): the student's schedule entry with
per-key default 3000, falling back to the global default record (again
with default 3000) when the student has no schedule entry.  The
`load_student_fees` and `load_default_fees` store contents are passed as
arguments. -/
def get_student_monthly_fee (fees : List (String × FeeSchedule)) (dflt : DefaultFees)
    (sid : String) : ℚ :=
  match dictGet sid fees with
  | some f => f.monthly_fee.getD 3000
  | none => dflt.monthly_fee.getD 3000

/-- Embedding of `get_student_annual_fee(student_id)`
(src/parent_portal.py lines 65-76): per-key default 3500; the global
fallback reads the `annual_charges` key. -/
def get_student_annual_fee (fees : List (String × FeeSchedule)) (dflt : DefaultFees)
    (sid : String) : ℚ :=
  match dictGet sid fees with
  | some f => f.annual_fee.getD 3500
  | none => dflt.annual_charges.getD 3500

/-- Embedding of `get_student_admission_fee(student_id)`
(src/parent_portal.py lines 78-89): per-key default 10000. -/
def get_student_admission_fee (fees : List (String × FeeSchedule)) (dflt : DefaultFees)
    (sid : String) : ℚ :=
  match dictGet sid fees with
  | some f => f.admission_fee.getD 10000
  | none => dflt.admission_fee.getD 10000

/-- Output dictionary of the portal resolver `get_student_fee_details`
(src/parent_portal.py lines 152-174). -/
structure FeeDetails where
  student_id : String
  student_name : String
  father_name : String
  className : String
  phone : String
  monthly_fee : ℚ
  annual_fee : ℚ
  admission_fee : ℚ
  total_monthly : ℚ
  total_annual : ℚ
  total_admission : ℚ
  total_received : ℚ
  total_due : ℚ
  balance_due : ℚ
  percentage_paid : ℚ
  paid_months : List PortalPaidMonth
  unpaid_months : List String
  total_paid_months : ℕ
  total_unpaid_months : ℕ
  annual_paid : Bool
  admission_paid : Bool
  deriving DecidableEq

/-- Embedding of `get_student_fee_details(student_id)`
(src/parent_portal.py lines 91-177).  The dataframe `load_data()` is the
fee ledger; `load_student_details()` is passed as an association list and
an absent student returns `none`.  The column sums restrict to the rows
whose ID matches; pandas skips unparseable (NaN) cells in sums, matching
`Option.getD 0`, and the `if not student_records.empty else 0` guards are
dropped because a sum over no rows is already 0.  Note the annual and
admission components of `total_due` are zeroed once any matching row
records that fee as paid, and the percentage rounds to one decimal. -/
def get_student_fee_details (ledger : List FeeRow)
    (sdb : List (String × PortalStudentInfo)) (fees : List (String × FeeSchedule))
    (dflt : DefaultFees) (sid : String) : Option FeeDetails :=
  match dictGet sid sdb with
  | none => none
  | some info =>
      let monthly_fee_amount := get_student_monthly_fee fees dflt sid
      let annual_fee_amount := get_student_annual_fee fees dflt sid
      let admission_fee_amount := get_student_admission_fee fees dflt sid
      let paid_months := portal_paid_months ledger sid
      let unpaid_months := portal_unpaid_months ledger sid
      let student_records := ledger.filter (fun r => r.id == some sid)
      let annual_paid := student_records.any (fun r => decide (0 < r.annualCharges))
      let admission_paid := student_records.any (fun r => decide (0 < r.admissionFee))
      let total_monthly := (student_records.map (fun r => r.monthlyFee)).sum
      let total_annual := (student_records.map (fun r => r.annualCharges)).sum
      let total_admission := (student_records.map (fun r => r.admissionFee)).sum
      let total_received := (student_records.map (fun r => r.receivedAmount.getD 0)).sum
      let total_annual_due := if annual_paid then 0 else annual_fee_amount
      let total_admission_due := if admission_paid then 0 else admission_fee_amount
      let total_due := monthly_fee_amount * 12 + total_annual_due + total_admission_due
      some { student_id := sid
             student_name := info.student_name.getD "N/A"
             father_name := info.father_name.getD "N/A"
             className := info.class_category.getD "N/A"
             phone := info.phone.getD "N/A"
             monthly_fee := monthly_fee_amount
             annual_fee := annual_fee_amount
             admission_fee := admission_fee_amount
             total_monthly := total_monthly
             total_annual := total_annual
             total_admission := total_admission
             total_received := total_received
             total_due := total_due
             balance_due := max 0 (total_due - total_received)
             percentage_paid :=
               pyRound1 (if 0 < total_due then total_received / total_due * 100 else 0)
             paid_months := paid_months
             unpaid_months := unpaid_months
             total_paid_months := paid_months.length
             total_unpaid_months := unpaid_months.length
             annual_paid := annual_paid
             admission_paid := admission_paid }

/-! Concrete data used to instantiate the theorems: the specification
scenario (monthly 3000, annual 3500, admission 10000, APRIL and MAY paid)
and small payment stores. -/

/-- Identity store of the specification scenario. -/
def scenarioStudents : List (String × StudentDetails) :=
  [("S1", { name := some "Asha", className := some "Class 5" })]

/-- Fee-schedule store of the specification scenario. -/
def scenarioFees : List (String × FeeSchedule) :=
  [("S1", { monthly_fee := some 3000, admission_fee := some 10000, annual_fee := some 3500 })]

/-- Ledger of the specification scenario: APRIL and MAY paid, 3000 each. -/
def scenarioLedger : List FeeRow :=
  [{ id := some "S1", month := "APRIL", monthlyFee := 3000, receivedAmount := some 3000,
     date := "2024-04-05", method := "Cash" },
   { id := some "S1", month := "MAY", monthlyFee := 3000, receivedAmount := some 3000,
     date := "2024-05-05", method := "Cash" }]

/-- Summary the scenario evaluates to: total due 49500, received 6000,
balance 43500, percentage 12.12. -/
def scenarioSummary : FeeSummary :=
  { student_id := "S1", student_name := "Asha", className := "Class 5",
    monthly_fee := 3000, admission_fee := 10000, annual_fee := 3500,
    total_yearly_due := 49500, total_received := 6000, balance_due := 43500,
    percentage_paid := 1212 / 100 }

/-- Ledger where the student has overpaid: one row of 60000 received. -/
def overpaidLedger : List FeeRow :=
  [{ id := some "S1", month := "APRIL", monthlyFee := 0, receivedAmount := some 60000,
     date := "2024-04-05", method := "Bank Transfer" }]

/-- Summary of the overpaid ledger: received 60000 exceeds the 49500 due,
so the balance clamps to 0. -/
def overpaidSummary : FeeSummary :=
  { student_id := "S1", student_name := "Asha", className := "Class 5",
    monthly_fee := 3000, admission_fee := 10000, annual_fee := 3500,
    total_yearly_due := 49500, total_received := 60000, balance_due := 0,
    percentage_paid := 12121 / 100 }

/-- Identity store of the scenario in the shape the portal path reads. -/
def portalStudents : List (String × PortalStudentInfo) :=
  [("S1", { student_name := some "Asha", father_name := some "Farid",
            class_category := some "Class 5", phone := some "0300-0000000" })]

/-- Default fee record of the scenario. -/
def scenarioDefaults : DefaultFees :=
  { monthly_fee := some 3000, annual_charges := some 3500, admission_fee := some 10000 }

/-- Ledger where the annual fee has been recorded as paid: one row with a
positive Annual Charges amount. -/
def annualPaidLedger : List FeeRow :=
  [{ id := some "S1", month := "ANNUAL", monthlyFee := 0, receivedAmount := some 3500,
     date := "2024-04-10", method := "Cash", annualCharges := 3500, admissionFee := 0 }]

/-- Ledger holding only the out-of-calendar sentinel row written by the
parent-portal payment path. -/
def sentinelLedger : List FeeRow :=
  [{ id := some "S1", month := "PARENT_PAYMENT", monthlyFee := 3000,
     receivedAmount := some 3000, date := "2024-04-05", method := "JazzCash" }]

/-- Admin store holding a single rejected request. -/
def rejectedStore : PaymentsStore :=
  [("S1", [{ student_id := "S1", student_name := "Asha", amount := 3000,
             payment_method := "JazzCash", payment_date := "2024-04-05 10:00:00",
             transaction_id := some "T1", status := "rejected" }])]

/-- Admin store holding a single request pending verification. -/
def pendingStore : PaymentsStore :=
  [("S1", [{ student_id := "S1", student_name := "Asha", amount := 3000,
             payment_method := "JazzCash", payment_date := "2024-04-05 10:00:00",
             transaction_id := some "T1", status := "pending_verification" }])]

/-- Admin store with two students whose single requests carry the same
transaction identifier. -/
def dupStore : PaymentsStore :=
  [("S1", [{ student_id := "S1", student_name := "Asha", amount := 3000,
             payment_method := "JazzCash", payment_date := "2024-04-05 10:00:00",
             transaction_id := some "T9", status := "pending_verification" }]),
   ("S2", [{ student_id := "S2", student_name := "Bilal", amount := 3500,
             payment_method := "EasyPaisa", payment_date := "2024-04-06 11:00:00",
             transaction_id := some "T9", status := "pending_verification" }])]

/-- Verification timestamps of all records of a store, in store order. -/
def verifiedAtsOf (s : PaymentsStore) : List (List (Option String)) :=
  s.map (fun stu => stu.2.map (fun r => r.verified_at))

/-- Parent-side request store with one existing request per student. -/
def twoStudentRequests : RequestStore :=
  [("S1", [{ request_id := "PR_20240401120000", parent_email := "a@x.com", amount := 3000,
             payment_type := "Monthly Fee - APRIL", payment_method := "JazzCash",
             status := "pending", requested_at := "2024-04-01 12:00:00",
             selected_months := ["APRIL"] }]),
   ("S2", [{ request_id := "PR_20240402120000", parent_email := "b@x.com", amount := 3500,
             payment_type := "Annual Fee", payment_method := "EasyPaisa",
             status := "pending", requested_at := "2024-04-02 12:00:00",
             selected_months := [] }])]

/-! Helper lemmas. -/

theorem updateFirst_eq_of_none {α : Type} (p : α → Bool) (f : α → α) :
    ∀ l : List α, (∀ x ∈ l, p x = false) → updateFirst p f l = l := by
  intro l
  induction l with
  | nil => intro _; rfl
  | cons x xs ih =>
      intro h
      have hx := h x (List.mem_cons_self x xs)
      simp [updateFirst, hx, ih fun y hy => h y (List.mem_cons_of_mem x hy)]

theorem updateFirst_forall2 {α : Type} (R : α → α → Prop) (p : α → Bool) (f : α → α)
    (hrefl : ∀ a, R a a) (hf : ∀ a, R a (f a)) :
    ∀ l : List α, List.Forall₂ R l (updateFirst p f l) := by
  intro l
  induction l with
  | nil => exact List.Forall₂.nil
  | cons x xs ih =>
      by_cases hx : p x
      · simpa [updateFirst, hx] using
          List.Forall₂.cons (hf x) (List.forall₂_same.mpr fun y _ => hrefl y)
      · simpa [updateFirst, hx] using List.Forall₂.cons (hrefl x) ih

theorem updateFirst_spec {α : Type} (p : α → Bool) (f : α → α) :
    ∀ l : List α,
      ((∀ x ∈ l, p x = false) ∧ updateFirst p f l = l) ∨
      (∃ l1 x l2, l = l1 ++ x :: l2 ∧ p x = true ∧ (∀ y ∈ l1, p y = false) ∧
        updateFirst p f l = l1 ++ f x :: l2) := by
  intro l
  induction l with
  | nil => exact Or.inl ⟨fun x hx => absurd hx (List.not_mem_nil x), rfl⟩
  | cons x xs ih =>
      by_cases hx : p x
      · refine Or.inr ⟨[], x, xs, rfl, hx, fun y hy => absurd hy (List.not_mem_nil y), ?_⟩
        simp [updateFirst, hx]
      · rcases ih with ⟨hall, heq⟩ | ⟨l1, z, l2, hsplit, hz, hbef, heq⟩
        · refine Or.inl ⟨?_, ?_⟩
          · intro y hy
            rcases List.mem_cons.mp hy with rfl | hy2
            · exact Bool.eq_false_iff.mpr hx
            · exact hall y hy2
          · simp [updateFirst, hx, heq]
        · refine Or.inr ⟨x :: l1, z, l2, by rw [hsplit]; rfl, hz, ?_, ?_⟩
          · intro y hy
            rcases List.mem_cons.mp hy with rfl | hy2
            · exact Bool.eq_false_iff.mpr hx
            · exact hbef y hy2
          · simp [updateFirst, hx, heq]

/-! Claims C4, C5, C6: the fee summary. -/

theorem scenario_summary_eval :
    get_student_fee_summary (some scenarioStudents) (some scenarioFees) scenarioLedger "S1"
      = some scenarioSummary := by
  simp only [get_student_fee_summary, get_student_details, get_student_fees, Option.some_bind,
    scenarioStudents, scenarioFees, scenarioLedger, dictGet, receivedOf, List.foldl,
    scenarioSummary, pyRound2, Option.getD]
  norm_num [FeeSummary.mk.injEq, round_eq]

theorem overpaid_summary_eval :
    get_student_fee_summary (some scenarioStudents) (some scenarioFees) overpaidLedger "S1"
      = some overpaidSummary := by
  simp only [get_student_fee_summary, get_student_details, get_student_fees, Option.some_bind,
    scenarioStudents, scenarioFees, overpaidLedger, dictGet, receivedOf, List.foldl,
    overpaidSummary, pyRound2, Option.getD]
  norm_num [FeeSummary.mk.injEq, round_eq]

/-- Claim C4 (counterexample): on the parent-portal path cited by the
claim, the total due depends on which fees have already been paid: with
the scenario schedule (monthly 3000, admission 10000, annual 3500) an
empty ledger gives total due 49500 but a ledger recording the annual
charge as paid gives 46000, which is not monthly*12 + admission +
annual. -/
theorem C4_counterexample :
    (get_student_fee_details annualPaidLedger portalStudents scenarioFees scenarioDefaults
        "S1").map FeeDetails.total_due = some 46000 ∧
    (get_student_fee_details [] portalStudents scenarioFees scenarioDefaults "S1").map
      FeeDetails.total_due = some 49500 ∧
    (46000 : ℚ) ≠ 3000 * 12 + 10000 + 3500 := by
  refine ⟨?_, ?_, by norm_num⟩
  · simp only [get_student_fee_details, dictGet, portalStudents, scenarioFees,
      scenarioDefaults, annualPaidLedger, get_student_monthly_fee, get_student_annual_fee,
      get_student_admission_fee, List.filter, List.any, List.map, List.sum, Option.getD,
      Option.map]
    norm_num
  · simp only [get_student_fee_details, dictGet, portalStudents, scenarioFees,
      scenarioDefaults, get_student_monthly_fee, get_student_annual_fee,
      get_student_admission_fee, List.filter, List.any, List.map, List.sum, Option.getD,
      Option.map]
    norm_num

/-- Claim C4 (amended): the parent-database fee summary's total due equals
monthly fee times 12 plus admission fee plus annual fee, taken from the
schedule and the same for every ledger content; the parent-portal fee
details' total due instead zeroes the annual (resp. admission) component
once a matching ledger row records that fee as paid, so on that path the
total due depends on which fees have already been paid. -/
theorem C4_total_due :
    (∀ (sDb : Option (List (String × StudentDetails)))
        (fDb : Option (List (String × FeeSchedule))) (ledger : List FeeRow) (sid : String)
        (st : StudentDetails) (f : FeeSchedule),
      get_student_details sDb sid = some st → get_student_fees fDb sid = some f →
      ∃ o, get_student_fee_summary sDb fDb ledger sid = some o ∧
        o.total_yearly_due = o.monthly_fee * 12 + o.admission_fee + o.annual_fee ∧
        o.monthly_fee = f.monthly_fee.getD 0 ∧
        o.admission_fee = f.admission_fee.getD 0 ∧
        o.annual_fee = f.annual_fee.getD 0 ∧
        ∀ ledger2, ∃ o2, get_student_fee_summary sDb fDb ledger2 sid = some o2 ∧
          o2.total_yearly_due = o.total_yearly_due) ∧
    (∀ (ledger : List FeeRow) (sdb : List (String × PortalStudentInfo))
        (fees : List (String × FeeSchedule)) (dflt : DefaultFees) (sid : String)
        (o : FeeDetails),
      get_student_fee_details ledger sdb fees dflt sid = some o →
      o.total_due = o.monthly_fee * 12 + (if o.annual_paid then 0 else o.annual_fee)
        + (if o.admission_paid then 0 else o.admission_fee)) := by
  constructor
  · intro sDb fDb ledger sid st f hs hf
    simp only [get_student_fee_summary, hs, hf]
    exact ⟨_, rfl, rfl, rfl, rfl, rfl, fun ledger2 => ⟨_, rfl, rfl⟩⟩
  · intro ledger sdb fees dflt sid o h
    unfold get_student_fee_details at h
    cases hs : dictGet sid sdb with
    | none => rw [hs] at h; exact absurd h (by simp)
    | some info =>
        rw [hs] at h
        cases Option.some.inj h
        rfl

/-- Witness for C4 (amended): the scenario schedule instantiates both
parts; the database summary's total due evaluates to 49500 on the
scenario ledger. -/
theorem C4_total_due_witness :
    (∃ o, get_student_fee_summary (some scenarioStudents) (some scenarioFees) scenarioLedger "S1"
        = some o ∧
      o.total_yearly_due = o.monthly_fee * 12 + o.admission_fee + o.annual_fee ∧
      o.monthly_fee = (3000 : ℚ) ∧ o.admission_fee = 10000 ∧ o.annual_fee = 3500 ∧
      ∀ ledger2, ∃ o2,
        get_student_fee_summary (some scenarioStudents) (some scenarioFees) ledger2 "S1"
          = some o2 ∧ o2.total_yearly_due = o.total_yearly_due) ∧
    get_student_fee_summary (some scenarioStudents) (some scenarioFees) scenarioLedger "S1"
      = some scenarioSummary ∧
    scenarioSummary.total_yearly_due = 49500 ∧
    (∃ o, get_student_fee_details annualPaidLedger portalStudents scenarioFees
        scenarioDefaults "S1" = some o ∧
      o.total_due = o.monthly_fee * 12 + (if o.annual_paid then 0 else o.annual_fee)
        + (if o.admission_paid then 0 else o.admission_fee)) :=
  ⟨C4_total_due.1 (some scenarioStudents) (some scenarioFees) scenarioLedger "S1" _ _ rfl rfl,
   scenario_summary_eval, by norm_num [scenarioSummary],
   ⟨_, rfl, C4_total_due.2 annualPaidLedger portalStudents scenarioFees scenarioDefaults
      "S1" _ rfl⟩⟩

/-- Claim C5: on both computation paths, the parent-database fee summary
and the parent-portal fee details, the balance due equals
max 0 (total due minus total received) and is never negative. -/
theorem C5_balance :
    (∀ (sDb : Option (List (String × StudentDetails)))
        (fDb : Option (List (String × FeeSchedule))) (ledger : List FeeRow) (sid : String)
        (o : FeeSummary),
      get_student_fee_summary sDb fDb ledger sid = some o →
      o.balance_due = max 0 (o.total_yearly_due - o.total_received) ∧ 0 ≤ o.balance_due) ∧
    (∀ (ledger : List FeeRow) (sdb : List (String × PortalStudentInfo))
        (fees : List (String × FeeSchedule)) (dflt : DefaultFees) (sid : String)
        (o : FeeDetails),
      get_student_fee_details ledger sdb fees dflt sid = some o →
      o.balance_due = max 0 (o.total_due - o.total_received) ∧ 0 ≤ o.balance_due) := by
  constructor
  · intro sDb fDb ledger sid o h
    unfold get_student_fee_summary at h
    cases hs : get_student_details sDb sid with
    | none => rw [hs] at h; exact absurd h (by simp)
    | some st =>
        cases hf : get_student_fees fDb sid with
        | none => rw [hs, hf] at h; exact absurd h (by simp)
        | some f =>
            rw [hs, hf] at h
            cases Option.some.inj h
            exact ⟨rfl, le_max_left 0 _⟩
  · intro ledger sdb fees dflt sid o h
    unfold get_student_fee_details at h
    cases hs : dictGet sid sdb with
    | none => rw [hs] at h; exact absurd h (by simp)
    | some info =>
        rw [hs] at h
        cases Option.some.inj h
        exact ⟨rfl, le_max_left 0 _⟩

/-- Witness for C5: with 60000 received against 49500 due both paths
clamp the balance to 0, absorbing the overpayment. -/
theorem C5_balance_witness :
    (overpaidSummary.balance_due
        = max 0 (overpaidSummary.total_yearly_due - overpaidSummary.total_received) ∧
      (0 : ℚ) ≤ overpaidSummary.balance_due) ∧
    (∃ o, get_student_fee_details overpaidLedger portalStudents scenarioFees scenarioDefaults
        "S1" = some o ∧
      o.balance_due = max 0 (o.total_due - o.total_received) ∧ 0 ≤ o.balance_due) ∧
    (get_student_fee_details overpaidLedger portalStudents scenarioFees scenarioDefaults
        "S1").map FeeDetails.balance_due = some 0 :=
  ⟨C5_balance.1 (some scenarioStudents) (some scenarioFees) overpaidLedger "S1"
      overpaidSummary overpaid_summary_eval,
   ⟨_, rfl, C5_balance.2 overpaidLedger portalStudents scenarioFees scenarioDefaults "S1" _
      rfl⟩,
   by
    simp only [get_student_fee_details, dictGet, portalStudents, scenarioFees,
      scenarioDefaults, overpaidLedger, get_student_monthly_fee, get_student_annual_fee,
      get_student_admission_fee, List.filter, List.any, List.map, List.sum, Option.getD,
      Option.map]
    norm_num⟩

/-- Claim C6 (counterexample): the parent-portal path cited by the claim
rounds the percentage to one decimal, so the scenario of 6000 received
against 49500 due yields 12.1 there, which is not the claimed
round(received/due*100, 2) = 12.12. -/
theorem C6_counterexample :
    (get_student_fee_details scenarioLedger portalStudents scenarioFees scenarioDefaults
        "S1").map FeeDetails.percentage_paid = some (12.1 : ℚ) ∧
    (12.1 : ℚ) ≠ pyRound2 (6000 / 49500 * 100) := by
  constructor
  · simp only [get_student_fee_details, dictGet, portalStudents, scenarioFees,
      scenarioDefaults, scenarioLedger, get_student_monthly_fee, get_student_annual_fee,
      get_student_admission_fee, List.filter, List.any, List.map, List.sum, Option.getD,
      Option.map, pyRound1]
    norm_num [round_eq]
  · unfold pyRound2
    rw [show ((6000 : ℚ) / 49500 * 100 * 100) = 40000 / 33 by norm_num, round_eq]
    norm_num

/-- Claim C6 (amended): the parent-database fee summary's percentage paid
is the two-decimal rounding of received over due times 100 when the total
due is positive and 0 when it is 0; the parent-portal fee details'
percentage instead rounds to one decimal, with the same zero guard, so
the scenario shows 12.12 on the database path but 12.1 on the portal
path. -/
theorem C6_percentage :
    (∀ (sDb : Option (List (String × StudentDetails)))
        (fDb : Option (List (String × FeeSchedule))) (ledger : List FeeRow) (sid : String)
        (o : FeeSummary),
      get_student_fee_summary sDb fDb ledger sid = some o →
      (0 < o.total_yearly_due →
          o.percentage_paid = pyRound2 (o.total_received / o.total_yearly_due * 100)) ∧
      (o.total_yearly_due = 0 → o.percentage_paid = 0)) ∧
    (∀ (ledger : List FeeRow) (sdb : List (String × PortalStudentInfo))
        (fees : List (String × FeeSchedule)) (dflt : DefaultFees) (sid : String)
        (o : FeeDetails),
      get_student_fee_details ledger sdb fees dflt sid = some o →
      (0 < o.total_due →
          o.percentage_paid = pyRound1 (o.total_received / o.total_due * 100)) ∧
      (o.total_due = 0 → o.percentage_paid = 0)) := by
  constructor
  · intro sDb fDb ledger sid o h
    unfold get_student_fee_summary at h
    cases hs : get_student_details sDb sid with
    | none => rw [hs] at h; exact absurd h (by simp)
    | some st =>
        cases hf : get_student_fees fDb sid with
        | none => rw [hs, hf] at h; exact absurd h (by simp)
        | some f =>
            rw [hs, hf] at h
            cases Option.some.inj h
            constructor
            · intro hpos
              simp only [if_pos hpos]
            · intro hz
              dsimp only at hz ⊢
              simp only [hz]
              norm_num [pyRound2]
  · intro ledger sdb fees dflt sid o h
    unfold get_student_fee_details at h
    cases hs : dictGet sid sdb with
    | none => rw [hs] at h; exact absurd h (by simp)
    | some info =>
        rw [hs] at h
        cases Option.some.inj h
        constructor
        · intro hpos
          simp only [if_pos hpos]
        · intro hz
          dsimp only at hz ⊢
          simp only [hz]
          norm_num [pyRound1]

/-- Witness for C6 (amended): the specification scenario instantiates
both parts; the database summary's percentage evaluates to 12.12. -/
theorem C6_percentage_witness :
    ((0 < scenarioSummary.total_yearly_due →
        scenarioSummary.percentage_paid
          = pyRound2 (scenarioSummary.total_received / scenarioSummary.total_yearly_due * 100)) ∧
      (scenarioSummary.total_yearly_due = 0 → scenarioSummary.percentage_paid = 0)) ∧
    scenarioSummary.percentage_paid = (12.12 : ℚ) ∧
    (∃ o, get_student_fee_details scenarioLedger portalStudents scenarioFees scenarioDefaults
        "S1" = some o ∧
      (0 < o.total_due →
          o.percentage_paid = pyRound1 (o.total_received / o.total_due * 100)) ∧
      (o.total_due = 0 → o.percentage_paid = 0)) :=
  ⟨C6_percentage.1 (some scenarioStudents) (some scenarioFees) scenarioLedger "S1"
      scenarioSummary scenario_summary_eval,
   by norm_num [scenarioSummary],
   ⟨_, rfl, C6_percentage.2 scenarioLedger portalStudents scenarioFees scenarioDefaults "S1"
      _ rfl⟩⟩

/-! Claims C1, C2, C3, C9: the verification workflow. -/

theorem verifyStore_of_no_match (tid : Option String) (now user : String) :
    ∀ s : PaymentsStore, (∀ stu ∈ s, ∀ r ∈ stu.2, r.transaction_id ≠ tid) →
      verifyStore tid now user s = s := by
  intro s
  induction s with
  | nil => intro _; rfl
  | cons stu rest ih =>
      intro h
      have h1 : updateFirst (fun r => r.transaction_id == tid) (verifyRecord now user) stu.2
          = stu.2 :=
        updateFirst_eq_of_none _ _ _ fun r hr => by
          simpa using h stu (List.mem_cons_self stu rest) r hr
      have h2 := ih fun stu2 hmem r hr => h stu2 (List.mem_cons_of_mem stu hmem) r hr
      simp only [verifyStore, List.map_cons, h1, Prod.mk.eta] at h2 ⊢
      rw [h2]

/-- Claim C1 (counterexample): a store holding a single rejected request is
flipped to verified by a verify call with its transaction identifier, so
the rejected state is not terminal. -/
theorem C1_counterexample :
    statusesOf rejectedStore = [["rejected"]] ∧
    (verify_parent_payment (some "T1") "2024-04-06 09:00:00" "Admin"
        (some rejectedStore)).2.map statusesOf = some [["verified"]] := by
  decide

/-- Claim C1 (amended): verify and reject match on the transaction
identifier alone, ignoring the current status, so verified and rejected
are not terminal states; what does hold is that after a verify every
record status is its old status or verified, and after a reject its old
status or rejected, so no request ever returns to pending and a verified
request is unchanged by further verify calls (likewise rejected by further
reject calls). -/
theorem C1_status_step (s : PaymentsStore) (tid : Option String) (now user : String) :
    List.Forall₂ (fun a b =>
        List.Forall₂ (fun r r2 => r2.status = r.status ∨ r2.status = "verified") a.2 b.2)
      s (verifyStore tid now user s) ∧
    List.Forall₂ (fun a b =>
        List.Forall₂ (fun r r2 => r2.status = r.status ∨ r2.status = "rejected") a.2 b.2)
      s (rejectStore tid now user s) := by
  constructor
  · unfold verifyStore
    induction s with
    | nil => exact List.Forall₂.nil
    | cons stu rest ih =>
        exact List.Forall₂.cons
          (updateFirst_forall2 (fun r r2 => r2.status = r.status ∨ r2.status = "verified")
            (fun r => r.transaction_id == tid) (verifyRecord now user)
            (fun a => Or.inl rfl) (fun a => Or.inr rfl) stu.2) ih
  · unfold rejectStore
    induction s with
    | nil => exact List.Forall₂.nil
    | cons stu rest ih =>
        exact List.Forall₂.cons
          (updateFirst_forall2 (fun r r2 => r2.status = r.status ∨ r2.status = "rejected")
            (fun r => r.transaction_id == tid) (rejectRecord now user)
            (fun a => Or.inl rfl) (fun a => Or.inr rfl) stu.2) ih

/-- Claim C2 (counterexample): when the store exists but no request
matches the transaction identifier, verify returns true, not false. -/
theorem C2_counterexample :
    (verify_parent_payment (some "T2") "2024-04-06 09:00:00" "Admin" (some pendingStore)).1
      = true := by
  decide

/-- Claim C2 (amended): verify returns false when the store file is
missing; when the store exists but no request matches the identifier it
writes the store back unchanged and returns true. -/
theorem C2_missing_or_no_match (tid : Option String) (now user : String) (s : PaymentsStore)
    (h : ∀ stu ∈ s, ∀ r ∈ stu.2, r.transaction_id ≠ tid) :
    verify_parent_payment tid now user none = (false, none) ∧
    verify_parent_payment tid now user (some s) = (true, some s) :=
  ⟨rfl, by simp [verify_parent_payment, verifyStore_of_no_match tid now user s h]⟩

/-- Witness for C2 (amended): a concrete one-request store and a
non-matching identifier. -/
theorem C2_missing_or_no_match_witness :
    verify_parent_payment (some "T2") "2024-04-06 09:00:00" "Admin" none = (false, none) ∧
    verify_parent_payment (some "T2") "2024-04-06 09:00:00" "Admin" (some pendingStore)
      = (true, some pendingStore) :=
  C2_missing_or_no_match (some "T2") "2024-04-06 09:00:00" "Admin" pendingStore (by decide)

theorem updateFirst_comp {α : Type} (p : α → Bool) (f g : α → α)
    (hf : ∀ x, p x = true → p (f x) = true) :
    ∀ l : List α, updateFirst p g (updateFirst p f l) = updateFirst p (fun x => g (f x)) l := by
  intro l
  induction l with
  | nil => rfl
  | cons x xs ih =>
      by_cases hx : p x
      · simp [updateFirst, hx, hf x hx]
      · simp [updateFirst, hx, ih]

theorem verifyStore_verifyStore (tid : Option String) (t1 u1 t2 u2 : String)
    (s : PaymentsStore) :
    verifyStore tid t2 u2 (verifyStore tid t1 u1 s) = verifyStore tid t2 u2 s := by
  unfold verifyStore
  rw [List.map_map]
  refine List.map_congr_left fun stu _ => ?_
  show (stu.1, updateFirst _ (verifyRecord t2 u2) (updateFirst _ (verifyRecord t1 u1) stu.2))
      = (stu.1, updateFirst _ (verifyRecord t2 u2) stu.2)
  rw [updateFirst_comp (fun r => r.transaction_id == tid) (verifyRecord t1 u1)
    (verifyRecord t2 u2) (fun x hx => hx) stu.2]
  rfl

theorem updateFirst_verify_statuses (p : PaymentRecord → Bool) (t1 u1 t2 u2 : String) :
    ∀ l : List PaymentRecord,
      (updateFirst p (verifyRecord t1 u1) l).map (fun r => r.status)
        = (updateFirst p (verifyRecord t2 u2) l).map (fun r => r.status) := by
  intro l
  induction l with
  | nil => rfl
  | cons x xs ih =>
      by_cases hx : p x
      · simp [updateFirst, hx, verifyRecord]
      · simp [updateFirst, hx, ih]

theorem verifyStore_statuses (tid : Option String) (t1 u1 t2 u2 : String) (s : PaymentsStore) :
    statusesOf (verifyStore tid t1 u1 s) = statusesOf (verifyStore tid t2 u2 s) := by
  unfold statusesOf verifyStore
  rw [List.map_map, List.map_map]
  exact List.map_congr_left fun stu _ => updateFirst_verify_statuses _ t1 u1 t2 u2 stu.2

/-- Claim C3 (counterexample): verifying the same identifier twice is not
a no-op returning false: the second call returns true and re-stamps the
verification timestamp, so the store after the second call differs from
the store after the first. -/
theorem C3_counterexample :
    (verify_parent_payment (some "T1") "2024-04-07 10:00:00" "Admin"
        (verify_parent_payment (some "T1") "2024-04-06 09:00:00" "Admin"
          (some pendingStore)).2).1 = true ∧
    (verify_parent_payment (some "T1") "2024-04-07 10:00:00" "Admin"
        (verify_parent_payment (some "T1") "2024-04-06 09:00:00" "Admin"
          (some pendingStore)).2).2.map verifiedAtsOf
      = some [[some "2024-04-07 10:00:00"]] ∧
    (verify_parent_payment (some "T1") "2024-04-06 09:00:00" "Admin"
        (some pendingStore)).2.map verifiedAtsOf = some [[some "2024-04-06 09:00:00"]] := by
  decide

/-- Claim C3 (amended): the first verify transitions the first matching
record to verified; a second verify with the same identifier matches the
same record again, returns true (not false), and yields exactly the store
a single verify at the second timestamp would give, so every status —
in particular the verified one — is as after the first call. -/
theorem C3_reverify (s : PaymentsStore) (tid : Option String) (t1 u1 t2 u2 : String) :
    verify_parent_payment tid t1 u1 (some s) = (true, some (verifyStore tid t1 u1 s)) ∧
    verify_parent_payment tid t2 u2 (some (verifyStore tid t1 u1 s))
      = (true, some (verifyStore tid t2 u2 s)) ∧
    statusesOf (verifyStore tid t2 u2 (verifyStore tid t1 u1 s))
      = statusesOf (verifyStore tid t1 u1 s) :=
  ⟨rfl,
   by simp only [verify_parent_payment, verifyStore_verifyStore],
   by rw [verifyStore_verifyStore]; exact verifyStore_statuses tid t2 u2 t1 u1 s⟩

/-- Claim C9 (counterexample): two records with the same transaction
identifier under two different students are both flipped by a single
verify call, not exactly one. -/
theorem C9_counterexample :
    statusesOf dupStore = [["pending_verification"], ["pending_verification"]] ∧
    (verify_parent_payment (some "T9") "2024-04-06 09:00:00" "Admin"
        (some dupStore)).2.map statusesOf = some [["verified"], ["verified"]] := by
  decide

/-- Claim C9 (amended): within each student's list a verify call rewrites
exactly the first record matching the identifier, leaving every other
record of that student unchanged, and a student list with no match is
unchanged; this holds for every student independently, so duplicates
under the same student see one change while duplicates under different
students see one change per student. -/
theorem C9_per_student (s : PaymentsStore) (tid : Option String) (t u : String) :
    List.Forall₂ (fun a b => a.1 = b.1 ∧
        (((∀ r ∈ a.2, r.transaction_id ≠ tid) ∧ b.2 = a.2) ∨
          ∃ l1 x l2, a.2 = l1 ++ x :: l2 ∧ x.transaction_id = tid ∧
            (∀ y ∈ l1, y.transaction_id ≠ tid) ∧ b.2 = l1 ++ verifyRecord t u x :: l2))
      s (verifyStore tid t u s) := by
  unfold verifyStore
  induction s with
  | nil => exact List.Forall₂.nil
  | cons stu rest ih =>
      refine List.Forall₂.cons ⟨rfl, ?_⟩ ih
      rcases updateFirst_spec (fun r => r.transaction_id == tid) (verifyRecord t u) stu.2 with
        ⟨hall, heq⟩ | ⟨l1, x, l2, hsplit, hx, hbef, heq⟩
      · exact Or.inl ⟨fun r hr => by simpa using hall r hr, heq⟩
      · exact Or.inr ⟨l1, x, l2, hsplit, by simpa using hx,
          fun y hy => by simpa using hbef y hy, heq⟩

/-! Claim C7: the month partition. -/

theorem mem_academic_of_mem_all {m : String} (hm : m ∈ allMonths) : m ∈ academicMonths := by
  fin_cases hm <;> decide

theorem mem_db_unpaid_iff (ledger : List FeeRow) (sid m : String) (hm : m ∈ allMonths) :
    m ∈ get_unpaid_months ledger sid
      ↔ m ∉ (get_paid_months ledger sid).map PaidMonth.month := by
  simp [get_unpaid_months, List.mem_filter, hm, List.elem_iff]

theorem mem_portal_unpaid_iff (ledger : List FeeRow) (sid m : String)
    (hm : m ∈ academicMonths) :
    m ∈ portal_unpaid_months ledger sid ↔ portalMonthPaid ledger sid m = false := by
  simp [portal_unpaid_months, List.mem_filter, hm]

theorem mem_portal_paid_iff (ledger : List FeeRow) (sid m : String)
    (hm : m ∈ academicMonths) :
    m ∈ (portal_paid_months ledger sid).map PortalPaidMonth.month
      ↔ portalMonthPaid ledger sid m = true := by
  unfold portal_paid_months portalMonthPaid
  constructor
  · intro h
    rcases List.mem_map.mp h with ⟨e, he, hme⟩
    rcases List.mem_filterMap.mp he with ⟨m2, hm2, hsome⟩
    rcases Option.map_eq_some'.mp hsome with ⟨r, hr, hfe⟩
    have hm2m : m2 = m := by rw [← hme, ← hfe]
    rw [hm2m] at hr
    have hq := List.find?_some hr
    exact List.any_eq_true.mpr ⟨r, List.mem_of_find?_eq_some hr, by simpa using hq⟩
  · intro h
    have hsome : (ledger.find?
        (fun r => r.id == some sid && r.month == m && decide (0 < r.monthlyFee))).isSome :=
      List.find?_isSome.mpr (List.any_eq_true.mp h)
    rcases Option.isSome_iff_exists.mp hsome with ⟨r0, hr0⟩
    exact List.mem_map.mpr
      ⟨{ month := m, amount := r0.monthlyFee, date := r0.date },
       List.mem_filterMap.mpr ⟨m, hm, by rw [hr0]; rfl⟩, rfl⟩

/-- Claim C7: for every ledger, including ledgers carrying out-of-calendar
month labels such as the PARENT_PAYMENT sentinel, each of the 12 calendar
months lies in exactly one of the paid and unpaid sets, for both the
parent-database resolver and the parent-portal resolver. -/
theorem C7_partition (ledger : List FeeRow) (sid m : String) (hm : m ∈ allMonths) :
    (m ∈ (get_paid_months ledger sid).map PaidMonth.month
      ↔ m ∉ get_unpaid_months ledger sid) ∧
    (m ∈ (portal_paid_months ledger sid).map PortalPaidMonth.month
      ↔ m ∉ portal_unpaid_months ledger sid) := by
  have hm2 := mem_academic_of_mem_all hm
  constructor
  · rw [mem_db_unpaid_iff ledger sid m hm]
    exact not_not.symm
  · rw [mem_portal_paid_iff ledger sid m hm2, mem_portal_unpaid_iff ledger sid m hm2]
    simp

/-- Witness for C7: a ledger holding only a PARENT_PAYMENT sentinel row,
tested at the calendar month APRIL. -/
theorem C7_partition_witness :
    ("APRIL" ∈ (get_paid_months sentinelLedger "S1").map PaidMonth.month
      ↔ "APRIL" ∉ get_unpaid_months sentinelLedger "S1") ∧
    ("APRIL" ∈ (portal_paid_months sentinelLedger "S1").map PortalPaidMonth.month
      ↔ "APRIL" ∉ portal_unpaid_months sentinelLedger "S1") :=
  C7_partition sentinelLedger "S1" "APRIL" (by decide)

/-! Claims C8 and C10: the payment-request store. -/

theorem dictGet_storeAppend_self (sid : String) (req : PaymentRequest) :
    ∀ m : RequestStore,
      dictGet sid (storeAppend sid req m) = some ((dictGet sid m).getD [] ++ [req]) := by
  intro m
  induction m with
  | nil => simp [storeAppend, dictGet]
  | cons kv rest ih =>
      obtain ⟨k, l⟩ := kv
      by_cases hk : k = sid
      · subst hk
        simp [storeAppend, dictGet]
      · simp [storeAppend, dictGet, hk, ih]

theorem dictGet_storeAppend_other (sid sid2 : String) (req : PaymentRequest)
    (h : sid2 ≠ sid) :
    ∀ m : RequestStore, dictGet sid2 (storeAppend sid req m) = dictGet sid2 m := by
  intro m
  induction m with
  | nil => simp [storeAppend, dictGet, Ne.symm h]
  | cons kv rest ih =>
      obtain ⟨k, l⟩ := kv
      by_cases hk : k = sid
      · subst hk
        simp [storeAppend, dictGet, Ne.symm h]
      · simp [storeAppend, dictGet, hk, ih]

theorem get_payment_requests_record_self (file : Option RequestStore) (sid email : String)
    (amount : ℚ) (ptype pmethod : String) (months : Option (List String))
    (ridTime reqTime : String) :
    get_payment_requests sid
        (some (record_payment_request sid email amount ptype pmethod months ridTime reqTime
          file).2)
      = get_payment_requests sid file
        ++ [newRequest email amount ptype pmethod months ridTime reqTime] := by
  simp [get_payment_requests, record_payment_request, dictGet_storeAppend_self]

/-- Claim C8: creating a payment request and then listing that student's
requests filtered to pending status yields a list containing the new
request, whose status is pending and whose id is the returned one. -/
theorem C8_pending_listed (file : Option RequestStore) (sid email : String) (amount : ℚ)
    (ptype pmethod : String) (months : Option (List String)) (ridTime reqTime : String) :
    newRequest email amount ptype pmethod months ridTime reqTime ∈
      pendingRequestsOf (get_payment_requests sid
        (some (record_payment_request sid email amount ptype pmethod months ridTime reqTime
          file).2)) ∧
    (newRequest email amount ptype pmethod months ridTime reqTime).status = "pending" ∧
    (newRequest email amount ptype pmethod months ridTime reqTime).request_id
      = (record_payment_request sid email amount ptype pmethod months ridTime reqTime file).1 := by
  refine ⟨?_, rfl, rfl⟩
  rw [get_payment_requests_record_self]
  exact List.mem_filter.mpr
    ⟨List.mem_append.mpr (Or.inr (List.mem_singleton.mpr rfl)), rfl⟩

/-- Claim C10: recording a payment request appends exactly one record to
the given student's list and leaves every other student's list unchanged,
for every prior store content including a missing or unparseable file. -/
theorem C10_frame (file : Option RequestStore) (sid email : String) (amount : ℚ)
    (ptype pmethod : String) (months : Option (List String)) (ridTime reqTime : String) :
    get_payment_requests sid
        (some (record_payment_request sid email amount ptype pmethod months ridTime reqTime
          file).2)
      = get_payment_requests sid file
        ++ [newRequest email amount ptype pmethod months ridTime reqTime] ∧
    ∀ sid2, sid2 ≠ sid →
      get_payment_requests sid2
          (some (record_payment_request sid email amount ptype pmethod months ridTime reqTime
            file).2)
        = get_payment_requests sid2 file := by
  constructor
  · exact get_payment_requests_record_self file sid email amount ptype pmethod months
      ridTime reqTime
  · intro sid2 h
    simp [get_payment_requests, record_payment_request,
      dictGet_storeAppend_other sid sid2 _ h]

/-- Witness for C10: recording a request for student S1 in a store that
already holds one request for S1 and one for S2. -/
theorem C10_frame_witness :
    (get_payment_requests "S1"
        (some (record_payment_request "S1" "a@x.com" 6000 "Monthly Fee - JUNE, JULY" "JazzCash"
          (some ["JUNE", "JULY"]) "20240601120000" "2024-06-01 12:00:00"
          (some twoStudentRequests)).2)
      = get_payment_requests "S1" (some twoStudentRequests)
        ++ [newRequest "a@x.com" 6000 "Monthly Fee - JUNE, JULY" "JazzCash"
          (some ["JUNE", "JULY"]) "20240601120000" "2024-06-01 12:00:00"]) ∧
    get_payment_requests "S2"
        (some (record_payment_request "S1" "a@x.com" 6000 "Monthly Fee - JUNE, JULY" "JazzCash"
          (some ["JUNE", "JULY"]) "20240601120000" "2024-06-01 12:00:00"
          (some twoStudentRequests)).2)
      = get_payment_requests "S2" (some twoStudentRequests) :=
  ⟨(C10_frame (some twoStudentRequests) "S1" "a@x.com" 6000 "Monthly Fee - JUNE, JULY"
      "JazzCash" (some ["JUNE", "JULY"]) "20240601120000" "2024-06-01 12:00:00").1,
   (C10_frame (some twoStudentRequests) "S1" "a@x.com" 6000 "Monthly Fee - JUNE, JULY"
      "JazzCash" (some ["JUNE", "JULY"]) "20240601120000" "2024-06-01 12:00:00").2 "S2"
     (by decide)⟩

end AdminParent
